import Mathlib

/-!
Verification of the Cellar Pump Controller (src/src/main.cpp).

The single C++ translation unit is shallowly embedded: the global
variables become fields of `SysState`, every function becomes a Lean
function on `SysState`, and one iteration of `loop()` becomes
`loopStep`.  Machine integers (`unsigned long`, 32 bits on the target)
are modelled as `Nat` with explicit reduction modulo `2^32`; `wsub`
models the wrapping unsigned subtraction `now - reference`.
`millis()` is modelled as a single `now` value per loop iteration.
Sensor floats are abstracted to their value in tenths (the resolution
that `dtostrf(x, 4, 1, _)` prints); a failed `readTempAndHumidity`
call is modelled as `none`.  Serial log output is modelled as a list
of `LogEvent` values appended in emission order.
-/

/-- Modulus of the 32-bit `unsigned long` arithmetic used for `millis()`. -/
def ULONG_WRAP : Nat := 4294967296

/-- Wrapping unsigned 32-bit subtraction: models `now - reference` on
`unsigned long` operands (both `< ULONG_WRAP` in the machine). -/
def wsub (a b : Nat) : Nat := (a + ULONG_WRAP - b % ULONG_WRAP) % ULONG_WRAP

def DEFAULT_PUMP_ON_DURATION : Nat := 1000 * 60

def DEFAULT_PUMP_CYCLE_INTERVAL : Nat := 1000 * 60 * 5

def DISPLAY_UPDATE_INTERVAL : Nat := 500

def SENSOR_READ_INTERVAL : Nat := 1000 * 2

def GREEN_THRESHOLD : Nat := 1000 * 60 * 5

def DEBOUNCE_MS : Nat := 50

def OVERLAY_DISPLAY_MS : Nat := 1000 * 2

def EEPROM_MAGIC : Nat := 0xC7

/-- A preset profile: `{onDuration, cycleInterval, label}` (struct `Preset`). -/
structure Preset where
  onDuration : Nat
  cycleInterval : Nat
  label : String
deriving DecidableEq, Repr

/-- The `PRESETS[]` catalog, transcribed with its exact durations and labels. -/
def PRESETS : List Preset := [
  ⟨60 * 1000, 30 * 60 * 1000, "1: 60s / 30min"⟩,
  ⟨60 * 1000, 2 * 60 * 60 * 1000, "2: 60s / 2h"⟩,
  ⟨60 * 1000, 6 * 60 * 60 * 1000, "3: 60s / 6h"⟩,
  ⟨60 * 1000, 24 * 60 * 60 * 1000, "4: 60s / 1day"⟩,
  ⟨60 * 1000, 1 * 60 * 1000, "5: 60s / 1min"⟩,
  ⟨60 * 1000, 4 * 60 * 1000, "6: 60s / 4min"⟩,
  ⟨60 * 1000, 10 * 60 * 1000, "7: 60s / 10min"⟩]

def PRESET_COUNT : Nat := PRESETS.length

/-- Fallback element for `List.getD`; never reached for indices `< PRESET_COUNT`. -/
def defPreset : Preset := ⟨0, 0, ""⟩

/-- The two persisted EEPROM bytes: validity marker and preset index. -/
structure EEPROMState where
  magic : Nat
  preset : Nat
deriving DecidableEq, Repr

/-- One line emitted to the serial log sink. -/
inductive LogEvent where
  | pumpOn (temp hum : Int)
  | pumpOff (temp hum : Int)
  | presetChange (label : String)
deriving DecidableEq, Repr

def LogEvent.isPumpOffEvent : LogEvent → Bool
  | .pumpOff _ _ => true
  | _ => false

/-- All global mutable state of the translation unit, including the
function-local `static bool stableState` of `loop()` and the relay
output level (`relay = true` models the pin driven HIGH). -/
structure SysState where
  pumpOnDuration : Nat
  pumpCycleInterval : Nat
  pumpRunning : Bool
  pumpStartTime : Nat
  pumpStopTime : Nat
  lastDisplayUpdate : Nat
  lastSensorRead : Nat
  temperature : Int
  humidity : Int
  relay : Bool
  currentPreset : Nat
  lastButtonState : Bool
  lastDebounceTime : Nat
  stableState : Bool
  overlayStartTime : Nat
  overlayShowing : Bool
  eeprom : EEPROMState
  log : List LogEvent
deriving DecidableEq, Repr

/-- `applyPreset(idx)`: clamp out-of-range indices to 0, then install the
preset's durations as the live configuration. -/
def applyPreset (idx : Nat) (s : SysState) : SysState :=
  let i := if PRESET_COUNT ≤ idx then 0 else idx
  { s with currentPreset := i,
           pumpOnDuration := (PRESETS.getD i defPreset).onDuration,
           pumpCycleInterval := (PRESETS.getD i defPreset).cycleInterval }

/-- `savePresetToEEPROM(idx)`: write the magic marker and the index. -/
def savePresetToEEPROM (idx : Nat) (s : SysState) : SysState :=
  { s with eeprom := ⟨EEPROM_MAGIC, idx⟩ }

/-- `loadPresetFromEEPROM()`: 0 on marker mismatch or out-of-range index. -/
def loadPresetFromEEPROM (e : EEPROMState) : Nat :=
  if e.magic ≠ EEPROM_MAGIC then 0
  else if e.preset < PRESET_COUNT then e.preset else 0

/-- `readSensor()`: on success (`readTempAndHumidity` returned 0) overwrite
the cached values (`values[0]` is humidity, `values[1]` is temperature);
on failure keep the previous values. -/
def readSensor (result : Option (Int × Int)) (s : SysState) : SysState :=
  match result with
  | some v => { s with humidity := v.1, temperature := v.2 }
  | none => s

/-- `pumpOn()`: no-op when already running; otherwise relay HIGH, record
`pumpStartTime`, emit one log line with the temperature/humidity snapshot. -/
def pumpOn (now : Nat) (s : SysState) : SysState :=
  if s.pumpRunning then s
  else { s with relay := true, pumpRunning := true, pumpStartTime := now,
                log := s.log ++ [LogEvent.pumpOn s.temperature s.humidity] }

/-- `pumpOff()`: no-op when already stopped; otherwise relay LOW, record
`pumpStopTime`, emit one log line with the temperature/humidity snapshot. -/
def pumpOff (now : Nat) (s : SysState) : SysState :=
  if s.pumpRunning then
    { s with relay := false, pumpRunning := false, pumpStopTime := now,
             log := s.log ++ [LogEvent.pumpOff s.temperature s.humidity] }
  else s

/-- `updatePump()`: the non-blocking pump state machine tick. -/
def updatePump (now : Nat) (s : SysState) : SysState :=
  if s.pumpRunning then
    if s.pumpOnDuration ≤ wsub now s.pumpStartTime then pumpOff now s else s
  else
    if s.pumpCycleInterval ≤ wsub now s.pumpStopTime then pumpOn now s else s

/-- Left-pad to the minimum field width 4 used by `dtostrf(x, 4, 1, _)`. -/
def padLeft4 (str : String) : String :=
  if str.length < 4 then String.mk (List.replicate (4 - str.length) ' ') ++ str else str

/-- `dtostrf(x, 4, 1, _)` on a value given in tenths: one decimal digit,
right-justified in a field of width at least 4. -/
def dtostrf41 (tenths : Int) : String :=
  let n := tenths.natAbs
  let core := toString (n / 10) ++ "." ++ toString (n % 10)
  padLeft4 (if tenths < 0 then "-" ++ core else core)

/-- Line 1 of `updateDisplay()`: the "T:xx.xC H:xx.x%" layout when the
sensor feature is compiled in, the "No sensor" fallback otherwise. -/
def renderLine1 (sensorEnabled : Bool) (s : SysState) : String :=
  if sensorEnabled then
    "T:" ++ dtostrf41 s.temperature ++ "C H:" ++ dtostrf41 s.humidity ++ "%"
  else "No sensor"

/-- The stopped-branch formatting of line 2 of `updateDisplay()`, as a
function of the remaining milliseconds until the next activation. -/
def formatStoppedLine2 (remainingMs : Nat) : String :=
  let remainingSec := remainingMs / 1000
  if remainingSec ≤ 120 then "Pump off " ++ toString remainingSec ++ "s"
  else
    let remainingMin := (remainingSec + 30) / 60
    if 120 < remainingMin then "Pump off " ++ toString ((remainingMin + 30) / 60) ++ "h"
    else "Pump off " ++ toString remainingMin ++ "m"

/-- Line 2 of `updateDisplay()`: countdown while running, remaining time
until the next activation while stopped. -/
def renderLine2 (now : Nat) (s : SysState) : String :=
  if s.pumpRunning then
    let elapsed := wsub now s.pumpStartTime
    let remaining := if elapsed < s.pumpOnDuration then (s.pumpOnDuration - elapsed) / 1000 else 0
    "Pump on " ++ toString remaining ++ "s"
  else
    let elapsed := wsub now s.pumpStopTime
    let remainingMs := if elapsed < s.pumpCycleInterval then s.pumpCycleInterval - elapsed else 0
    formatStoppedLine2 remainingMs

/-- The body of the confirmed-press branch of `loop()`: cycle to the next
preset, persist it, force the pump off, restart the cycle countdown, and
trigger the overlay; emits the preset-change log line. -/
def handlePress (now : Nat) (s : SysState) : SysState :=
  let next := (s.currentPreset + 1) % PRESET_COUNT
  let s1 := savePresetToEEPROM next (applyPreset next s)
  let s2 := if s1.pumpRunning then { s1 with relay := false, pumpRunning := false } else s1
  { s2 with pumpStopTime := now, overlayStartTime := now, overlayShowing := true,
            log := s2.log ++ [LogEvent.presetChange (PRESETS.getD s2.currentPreset defPreset).label] }

/-- The preset-button block of `loop()` for one raw sample `reading` taken
at `now`, including the trailing `lastButtonState = reading`.  The second
component is true exactly when a press event fired (stable LOW-to-HIGH). -/
def buttonStep (now : Nat) (reading : Bool) (s : SysState) : SysState × Bool :=
  let ldt := if reading ≠ s.lastButtonState then now else s.lastDebounceTime
  let s1 := { s with lastDebounceTime := ldt }
  if DEBOUNCE_MS ≤ wsub now ldt ∧ reading ≠ s1.stableState then
    let s2 := { s1 with stableState := reading }
    if reading then ({ handlePress now s2 with lastButtonState := reading }, true)
    else ({ s2 with lastButtonState := reading }, false)
  else ({ s1 with lastButtonState := reading }, false)

/-- Environment inputs consumed by one `loop()` iteration. -/
structure LoopInput where
  now : Nat
  button : Bool
  sensor : Option (Int × Int)

/-- The sensor-due gate of `loop()`. -/
def sensorDue (now : Nat) (s : SysState) : Bool :=
  decide (SENSOR_READ_INTERVAL ≤ wsub now s.lastSensorRead)

/-- The sensor block of `loop()`: when due, advance `lastSensorRead` first
and then attempt the read. -/
def sensorPhase (now : Nat) (result : Option (Int × Int)) (s : SysState) : SysState :=
  if sensorDue now s then readSensor result { s with lastSensorRead := now } else s

/-- The display block of `loop()`: expire the overlay first, then render
(at most once per `DISPLAY_UPDATE_INTERVAL`) when no overlay is active.
The second component is true exactly when `updateDisplay()` was invoked. -/
def displayPhase (now : Nat) (s : SysState) : SysState × Bool :=
  let s1 := if s.overlayShowing ∧ OVERLAY_DISPLAY_MS ≤ wsub now s.overlayStartTime then
              { s with overlayShowing := false } else s
  if !s1.overlayShowing ∧ DISPLAY_UPDATE_INTERVAL ≤ wsub now s1.lastDisplayUpdate then
    ({ s1 with lastDisplayUpdate := now }, true)
  else (s1, false)

/-- One full `loop()` iteration in the fixed source order: button, pump
tick, sensor, display. -/
def loopStep (inp : LoopInput) (s : SysState) : SysState × Bool :=
  displayPhase inp.now
    (sensorPhase inp.now inp.sensor
      (updatePump inp.now ((buttonStep inp.now inp.button s).1)))

/-- The C++ static initializers of the globals. -/
def initialGlobals (e : EEPROMState) : SysState :=
  { pumpOnDuration := DEFAULT_PUMP_ON_DURATION,
    pumpCycleInterval := DEFAULT_PUMP_CYCLE_INTERVAL,
    pumpRunning := false, pumpStartTime := 0, pumpStopTime := 0,
    lastDisplayUpdate := 0, lastSensorRead := 0,
    temperature := 0, humidity := 0, relay := false,
    currentPreset := 0, lastButtonState := false, lastDebounceTime := 0,
    stableState := false, overlayStartTime := 0, overlayShowing := false,
    eeprom := e, log := [] }

/-- `setup()`: load and apply the persisted preset, then turn the pump on
once explicitly. -/
def bootSetup (bootNow : Nat) (e : EEPROMState) : SysState :=
  pumpOn bootNow (applyPreset (loadPresetFromEEPROM e) (initialGlobals e))

/-- Run the button block over a whole sample trace, counting press events. -/
def runButton : SysState → List (Nat × Bool) → SysState × Nat
  | s, [] => (s, 0)
  | s, (t, r) :: rest =>
    let p := buttonStep t r s
    let q := runButton p.1 rest
    (q.1, (if p.2 then 1 else 0) + q.2)

/-- A sample trace that stays inside the bounce window: every sample whose
level repeats the previous one arrives strictly less than `DEBOUNCE_MS`
after the most recent level flip (tracked in `lastFlip`). -/
def bouncy : Nat → Bool → List (Nat × Bool) → Bool
  | _, _, [] => true
  | lastFlip, lvl, (t, r) :: rest =>
    (if r = lvl then decide (wsub t lastFlip < DEBOUNCE_MS) else true) &&
    bouncy (if r = lvl then lastFlip else t) r rest

/-- Boot state from blank EEPROM; base for the concrete witness states. -/
def baseState : SysState := initialGlobals ⟨0, 0⟩

/-- Concrete state for the preset-change logging counterexample: pump
running on preset 0, button held HIGH long past the debounce window. -/
def c9state : SysState :=
  { baseState with pumpRunning := true, relay := true, pumpStartTime := 50,
                   lastButtonState := true,
                   pumpOnDuration := 60000, pumpCycleInterval := 1800000 }

/-- State after boot from blank EEPROM followed by one loop iteration whose
sensor read is due and fails: no sensor reading has ever succeeded here. -/
def c8state : SysState := (loopStep ⟨2000, false, none⟩ (bootSetup 0 ⟨0, 0⟩)).1

/-- Concrete wrapped-clock state for the pump-tick witness. -/
def c1state : SysState :=
  { baseState with pumpRunning := true, pumpStartTime := 4294966000,
                   pumpOnDuration := 60000, pumpCycleInterval := 1800000 }

theorem wsub_self (a : Nat) : wsub a a = 0 := by
  simp only [wsub, ULONG_WRAP]
  omega

theorem wsub_of_le {a b : Nat} (h1 : a ≤ b) (h2 : b < ULONG_WRAP) : wsub b a = b - a := by
  simp only [wsub, ULONG_WRAP] at *
  omega

theorem handlePress_button_fields (now : Nat) (s : SysState) :
    (handlePress now s).stableState = s.stableState ∧
    (handlePress now s).lastDebounceTime = s.lastDebounceTime ∧
    (handlePress now s).lastButtonState = s.lastButtonState ∧
    (handlePress now s).temperature = s.temperature ∧
    (handlePress now s).humidity = s.humidity ∧
    (handlePress now s).lastSensorRead = s.lastSensorRead ∧
    (handlePress now s).lastDisplayUpdate = s.lastDisplayUpdate := by
  by_cases hp : s.pumpRunning <;>
    simp [handlePress, savePresetToEEPROM, applyPreset, hp]

theorem handlePress_fields (now : Nat) (s : SysState) :
    (handlePress now s).currentPreset = (s.currentPreset + 1) % PRESET_COUNT ∧
    (handlePress now s).pumpOnDuration =
      (PRESETS.getD ((s.currentPreset + 1) % PRESET_COUNT) defPreset).onDuration ∧
    (handlePress now s).pumpCycleInterval =
      (PRESETS.getD ((s.currentPreset + 1) % PRESET_COUNT) defPreset).cycleInterval ∧
    (handlePress now s).pumpRunning = false ∧
    (s.relay = s.pumpRunning → (handlePress now s).relay = false) ∧
    (handlePress now s).pumpStopTime = now ∧
    (handlePress now s).overlayShowing = true ∧
    (handlePress now s).overlayStartTime = now ∧
    (handlePress now s).log =
      s.log ++ [LogEvent.presetChange
        (PRESETS.getD ((s.currentPreset + 1) % PRESET_COUNT) defPreset).label] := by
  have hlt : (s.currentPreset + 1) % PRESET_COUNT < PRESET_COUNT :=
    Nat.mod_lt _ (by decide)
  by_cases hp : s.pumpRunning <;>
    simp [handlePress, savePresetToEEPROM, applyPreset, hp, Nat.not_le.mpr hlt]

theorem preset_cycle_pos : ∀ i, i < PRESET_COUNT →
    0 < (PRESETS.getD i defPreset).cycleInterval := by decide

theorem updatePump_pres (now : Nat) (s : SysState) :
    (updatePump now s).pumpOnDuration = s.pumpOnDuration ∧
    (updatePump now s).pumpCycleInterval = s.pumpCycleInterval ∧
    (updatePump now s).currentPreset = s.currentPreset ∧
    (updatePump now s).lastButtonState = s.lastButtonState ∧
    (updatePump now s).lastDebounceTime = s.lastDebounceTime ∧
    (updatePump now s).stableState = s.stableState ∧
    (updatePump now s).overlayStartTime = s.overlayStartTime ∧
    (updatePump now s).overlayShowing = s.overlayShowing ∧
    (updatePump now s).lastDisplayUpdate = s.lastDisplayUpdate ∧
    (updatePump now s).lastSensorRead = s.lastSensorRead ∧
    (updatePump now s).temperature = s.temperature ∧
    (updatePump now s).humidity = s.humidity ∧
    (updatePump now s).eeprom = s.eeprom := by
  by_cases hp : s.pumpRunning <;>
    simp [updatePump, pumpOn, pumpOff, hp] <;> split <;> simp

theorem updatePump_stays_off (now : Nat) (s : SysState) (h : s.pumpRunning = false)
    (h2 : wsub now s.pumpStopTime < s.pumpCycleInterval) : updatePump now s = s := by
  unfold updatePump
  simp [h, Nat.not_le.mpr h2]

theorem updatePump_off_iff (now : Nat) (s : SysState) (h : s.pumpRunning = true) :
    (updatePump now s).pumpRunning = false ↔ s.pumpOnDuration ≤ wsub now s.pumpStartTime := by
  by_cases hc : s.pumpOnDuration ≤ wsub now s.pumpStartTime <;>
    simp [updatePump, pumpOff, h, hc]

theorem updatePump_on_iff (now : Nat) (s : SysState) (h : s.pumpRunning = false) :
    (updatePump now s).pumpRunning = true ↔ s.pumpCycleInterval ≤ wsub now s.pumpStopTime := by
  by_cases hc : s.pumpCycleInterval ≤ wsub now s.pumpStopTime <;>
    simp [updatePump, pumpOn, h, hc]

theorem sensorPhase_pres (now : Nat) (r : Option (Int × Int)) (s : SysState) :
    (sensorPhase now r s).pumpOnDuration = s.pumpOnDuration ∧
    (sensorPhase now r s).pumpCycleInterval = s.pumpCycleInterval ∧
    (sensorPhase now r s).pumpRunning = s.pumpRunning ∧
    (sensorPhase now r s).pumpStartTime = s.pumpStartTime ∧
    (sensorPhase now r s).pumpStopTime = s.pumpStopTime ∧
    (sensorPhase now r s).relay = s.relay ∧
    (sensorPhase now r s).currentPreset = s.currentPreset ∧
    (sensorPhase now r s).overlayStartTime = s.overlayStartTime ∧
    (sensorPhase now r s).overlayShowing = s.overlayShowing ∧
    (sensorPhase now r s).lastDisplayUpdate = s.lastDisplayUpdate ∧
    (sensorPhase now r s).log = s.log := by
  unfold sensorPhase readSensor
  split <;> cases r <;> simp

theorem bouncy_no_change : ∀ (tr : List (Nat × Bool)) (s : SysState),
    bouncy s.lastDebounceTime s.lastButtonState tr = true →
    (runButton s tr).1.stableState = s.stableState ∧ (runButton s tr).2 = 0 := by
  intro tr
  induction tr with
  | nil => intro s _; simp [runButton]
  | cons head rest ih =>
    obtain ⟨t, r⟩ := head
    intro s hb
    simp only [bouncy, Bool.and_eq_true] at hb
    obtain ⟨h1, h2⟩ := hb
    by_cases hr : r = s.lastButtonState
    · have hlt : wsub t s.lastDebounceTime < DEBOUNCE_MS := by
        simp [hr] at h1
        exact h1
      have hstep : buttonStep t r s = ({ s with lastButtonState := r }, false) := by
        simp [buttonStep, hr, Nat.not_le.mpr hlt]
      have hrec := ih { s with lastButtonState := r } (by simpa [hr] using h2)
      simp only [runButton, hstep]
      simpa using hrec
    · have hstep : buttonStep t r s =
          ({ s with lastDebounceTime := t, lastButtonState := r }, false) := by
        simp [buttonStep, hr, wsub_self, DEBOUNCE_MS]
      have hrec := ih { s with lastDebounceTime := t, lastButtonState := r }
        (by simpa [hr] using h2)
      simp only [runButton, hstep]
      simpa using hrec

theorem const_level_no_change : ∀ (ts : List Nat) (r : Bool) (s : SysState),
    s.stableState = r →
    (runButton s (ts.map fun u => (u, r))).1.stableState = r ∧
    (runButton s (ts.map fun u => (u, r))).2 = 0 := by
  intro ts
  induction ts with
  | nil => intro r s hs; simpa [runButton] using hs
  | cons u rest ih =>
    intro r s hs
    have hstable : (buttonStep u r s).1.stableState = r := by
      simp [buttonStep, hs]
    have hfired : (buttonStep u r s).2 = false := by
      simp [buttonStep, hs]
    have hrec := ih r (buttonStep u r s).1 hstable
    simp only [List.map_cons, runButton]
    simp [hfired, hrec.1, hrec.2]

theorem handlePress_stable (now : Nat) (s : SysState) :
    (handlePress now s).stableState = s.stableState :=
  (handlePress_button_fields now s).1

theorem buttonStep_press_fields (now : Nat) (s : SysState)
    (h1 : s.lastButtonState = true) (h2 : s.stableState = false)
    (h3 : DEBOUNCE_MS ≤ wsub now s.lastDebounceTime) :
    (buttonStep now true s).1.currentPreset = (s.currentPreset + 1) % PRESET_COUNT ∧
    (buttonStep now true s).1.pumpOnDuration =
      (PRESETS.getD ((s.currentPreset + 1) % PRESET_COUNT) defPreset).onDuration ∧
    (buttonStep now true s).1.pumpCycleInterval =
      (PRESETS.getD ((s.currentPreset + 1) % PRESET_COUNT) defPreset).cycleInterval ∧
    (buttonStep now true s).1.pumpRunning = false ∧
    (s.relay = s.pumpRunning → (buttonStep now true s).1.relay = false) ∧
    (buttonStep now true s).1.pumpStopTime = now ∧
    (buttonStep now true s).1.overlayShowing = true ∧
    (buttonStep now true s).1.overlayStartTime = now ∧
    (buttonStep now true s).1.log = s.log ++
      [LogEvent.presetChange
        (PRESETS.getD ((s.currentPreset + 1) % PRESET_COUNT) defPreset).label] ∧
    (buttonStep now true s).2 = true := by
  have hlt : (s.currentPreset + 1) % PRESET_COUNT < PRESET_COUNT :=
    Nat.mod_lt _ (by decide)
  by_cases hp : s.pumpRunning <;>
    simp [buttonStep, handlePress, savePresetToEEPROM, applyPreset,
      h1, h2, h3, hp, Nat.not_le.mpr hlt]

theorem buttonStep_sensor_fields (now : Nat) (r : Bool) (s : SysState) :
    (buttonStep now r s).1.temperature = s.temperature ∧
    (buttonStep now r s).1.humidity = s.humidity ∧
    (buttonStep now r s).1.lastSensorRead = s.lastSensorRead ∧
    (buttonStep now r s).1.lastDisplayUpdate = s.lastDisplayUpdate := by
  simp only [buttonStep]
  repeat' split
  all_goals
    by_cases hp : s.pumpRunning <;>
      simp [handlePress, savePresetToEEPROM, applyPreset, hp]

theorem displayPhase_pres (now : Nat) (s : SysState) :
    (displayPhase now s).1.pumpOnDuration = s.pumpOnDuration ∧
    (displayPhase now s).1.pumpCycleInterval = s.pumpCycleInterval ∧
    (displayPhase now s).1.pumpRunning = s.pumpRunning ∧
    (displayPhase now s).1.pumpStartTime = s.pumpStartTime ∧
    (displayPhase now s).1.pumpStopTime = s.pumpStopTime ∧
    (displayPhase now s).1.relay = s.relay ∧
    (displayPhase now s).1.currentPreset = s.currentPreset ∧
    (displayPhase now s).1.temperature = s.temperature ∧
    (displayPhase now s).1.humidity = s.humidity ∧
    (displayPhase now s).1.log = s.log := by
  unfold displayPhase
  repeat' split <;> simp_all

/-- Claim C1: while running, the pump tick transitions to OFF exactly when
the wrapping difference `now - pumpStartTime` reaches `pumpOnDuration`;
while stopped, it transitions to ON exactly when the wrapping difference
`now - pumpStopTime` reaches `pumpCycleInterval`; and for `now1 < now2`
with `now2 - now1 ≥ onDuration` while running (started at `now1`), a tick
at `now2` transitions to OFF exactly once (a repeated tick at `now2` does
not fire again).  Only modular subtraction (`wsub`) is compared, never
`now < reference`, so the characterization holds across clock wraparound. -/
theorem updatePump_wraparound_transitions (s : SysState) (now now1 now2 : Nat) :
    (s.pumpRunning = true →
      ((updatePump now s).pumpRunning = false ↔
        s.pumpOnDuration ≤ wsub now s.pumpStartTime)) ∧
    (s.pumpRunning = false →
      ((updatePump now s).pumpRunning = true ↔
        s.pumpCycleInterval ≤ wsub now s.pumpStopTime)) ∧
    (s.pumpRunning = true → s.pumpStartTime = now1 → now1 < now2 →
     now2 < ULONG_WRAP → s.pumpOnDuration ≤ now2 - now1 → 0 < s.pumpCycleInterval →
      (updatePump now2 s).pumpRunning = false ∧
      (updatePump now2 (updatePump now2 s)).pumpRunning = false) := by
  refine ⟨fun h => updatePump_off_iff now s h, fun h => updatePump_on_iff now s h, ?_⟩
  intro hrun hstart hlt hbound hdur hcyc
  have hws : wsub now2 s.pumpStartTime = now2 - now1 := by
    rw [hstart]
    exact wsub_of_le (Nat.le_of_lt hlt) hbound
  have hoff : (updatePump now2 s).pumpRunning = false := by
    rw [updatePump_off_iff now2 s hrun, hws]
    exact hdur
  refine ⟨hoff, ?_⟩
  have hfire : s.pumpOnDuration ≤ wsub now2 s.pumpStartTime := by
    rw [hws]; exact hdur
  have hstate : updatePump now2 s = pumpOff now2 s := by
    unfold updatePump
    simp [hrun, hfire]
  have hstop : (updatePump now2 s).pumpStopTime = now2 := by
    rw [hstate]
    unfold pumpOff
    simp [hrun]
  have hcyc2 : (updatePump now2 s).pumpCycleInterval = s.pumpCycleInterval :=
    (updatePump_pres now2 s).2.1
  rw [updatePump_stays_off now2 (updatePump now2 s) hoff
    (by rw [hstop, wsub_self, hcyc2]; exact hcyc)]
  exact hoff

/-- Witness for C1 at concrete inputs, including a wrapped clock: with
`pumpStartTime` near the 32-bit maximum and `now` after wraparound the
running pump still turns off, and a tick at `now2 = 70000` after a start
at `now1 = 100` turns the pump off and a repeated tick stays off. -/
theorem updatePump_wraparound_transitions_witness :
    (updatePump 59000 c1state).pumpRunning = false ∧
    (updatePump 70000 { baseState with pumpRunning := true, pumpStartTime := 100 }).pumpRunning
      = false ∧
    (updatePump 70000 (updatePump 70000
      { baseState with pumpRunning := true, pumpStartTime := 100 })).pumpRunning = false := by
  refine ⟨?_, ?_, ?_⟩
  · exact ((updatePump_wraparound_transitions c1state 59000 0 0).1 rfl).mpr (by decide)
  · exact (((updatePump_wraparound_transitions
      { baseState with pumpRunning := true, pumpStartTime := 100 } 0 100 70000).2.2)
      rfl rfl (by decide) (by decide) (by decide) (by decide)).1
  · exact (((updatePump_wraparound_transitions
      { baseState with pumpRunning := true, pumpStartTime := 100 } 0 100 70000).2.2)
      rfl rfl (by decide) (by decide) (by decide) (by decide)).2

/-- Claim C2: while stopped, line 2 uses the three-tier adaptive format
(seconds when the whole remaining seconds are at most 120, else
round-half-up minutes when those are at most 120, else round-half-up
hours); `renderLine2` feeds it the remaining milliseconds; and the three
concrete examples 90000 ms, 150000 ms and 8000000 ms render as
"Pump off 90s", "Pump off 3m" and "Pump off 2h". -/
theorem stoppedLine2_three_tier (rem now : Nat) (s : SysState) :
    (rem / 1000 ≤ 120 →
      formatStoppedLine2 rem = "Pump off " ++ toString (rem / 1000) ++ "s") ∧
    (120 < rem / 1000 → (rem / 1000 + 30) / 60 ≤ 120 →
      formatStoppedLine2 rem = "Pump off " ++ toString ((rem / 1000 + 30) / 60) ++ "m") ∧
    (120 < rem / 1000 → 120 < (rem / 1000 + 30) / 60 →
      formatStoppedLine2 rem =
        "Pump off " ++ toString (((rem / 1000 + 30) / 60 + 30) / 60) ++ "h") ∧
    (s.pumpRunning = false → wsub now s.pumpStopTime < s.pumpCycleInterval →
      renderLine2 now s =
        formatStoppedLine2 (s.pumpCycleInterval - wsub now s.pumpStopTime)) ∧
    formatStoppedLine2 90000 = "Pump off 90s" ∧
    formatStoppedLine2 150000 = "Pump off 3m" ∧
    formatStoppedLine2 8000000 = "Pump off 2h" := by
  refine ⟨?_, ?_, ?_, ?_, by decide, by decide, by decide⟩
  · intro h1
    simp [formatStoppedLine2, h1]
  · intro h1 h2
    simp [formatStoppedLine2, Nat.not_le.mpr h1, Nat.not_lt.mpr h2]
  · intro h1 h2
    simp [formatStoppedLine2, Nat.not_le.mpr h1, h2]
  · intro h1 h2
    simp [renderLine2, h1, h2]

/-- Witness for C2: the general tier statements applied at 90000 ms
(seconds tier) and 8000000 ms (hours tier), and the `renderLine2`
connection applied at a concrete stopped state. -/
theorem stoppedLine2_three_tier_witness :
    formatStoppedLine2 90000 = "Pump off " ++ toString 90 ++ "s" ∧
    formatStoppedLine2 8000000 = "Pump off " ++ toString 2 ++ "h" ∧
    renderLine2 100 { baseState with pumpStopTime := 50, pumpCycleInterval := 90050 } =
      formatStoppedLine2 90000 := by
  refine ⟨?_, ?_, ?_⟩
  · exact (stoppedLine2_three_tier 90000 0 baseState).1 (by decide)
  · exact (stoppedLine2_three_tier 8000000 0 baseState).2.2.1 (by decide) (by decide)
  · have h := (stoppedLine2_three_tier 0 100
      { baseState with pumpStopTime := 50, pumpCycleInterval := 90050 }).2.2.2.1
      rfl (by decide)
    simpa using h

/-- Claim C3: a sample trace that stays inside the bounce window (every
repeated-level sample arrives within `DEBOUNCE_MS` of the most recent
flip, the flips themselves restarting the window) never changes the
stable level and never emits a press event; and a raw level `r` held
unchanged once the debounce window has elapsed produces exactly one
stable-level transition, with the press event emitted exactly when the
transition is LOW-to-HIGH (`(buttonStep t r s).2 = r`), and any further
samples of the same level produce no further transition and no event. -/
theorem debounce_single_press (s : SysState) (tr : List (Nat × Bool))
    (t : Nat) (r : Bool) (ts : List Nat) :
    (bouncy s.lastDebounceTime s.lastButtonState tr = true →
      (runButton s tr).1.stableState = s.stableState ∧ (runButton s tr).2 = 0) ∧
    (s.lastButtonState = r → s.stableState ≠ r →
     DEBOUNCE_MS ≤ wsub t s.lastDebounceTime →
      (buttonStep t r s).1.stableState = r ∧
      (buttonStep t r s).2 = r ∧
      (runButton (buttonStep t r s).1 (ts.map fun u => (u, r))).1.stableState = r ∧
      (runButton (buttonStep t r s).1 (ts.map fun u => (u, r))).2 = 0) := by
  refine ⟨bouncy_no_change tr s, ?_⟩
  intro h1 h2 h3
  have h2' : s.stableState = !r := by
    cases r <;> cases hsv : s.stableState <;> simp_all
  have hstable : (buttonStep t r s).1.stableState = r := by
    cases r <;> simp [buttonStep, h1, h2', h3, handlePress_stable]
  have hfired : (buttonStep t r s).2 = r := by
    cases r <;> simp [buttonStep, h1, h2', h3]
  have hrest := const_level_no_change ts r (buttonStep t r s).1 hstable
  exact ⟨hstable, hfired, hrest.1, hrest.2⟩

/-- Witness for C3: a bouncing trace (flips at 10, 30 and 45 ms) emits no
press event, and a button held HIGH past the debounce window fires the
press event exactly once with no further events afterwards. -/
theorem debounce_single_press_witness :
    (runButton { baseState with lastButtonState := true } [(10, false), (30, true)]).2 = 0 ∧
    (buttonStep 60 true { baseState with lastButtonState := true }).2 = true ∧
    (runButton (buttonStep 60 true { baseState with lastButtonState := true }).1
      ([70, 80].map fun u => (u, true))).2 = 0 := by
  have h := debounce_single_press { baseState with lastButtonState := true }
    [(10, false), (30, true)] 60 true [70, 80]
  have h2 := h.2 rfl (by decide) (by decide)
  exact ⟨(h.1 (by decide)).2, h2.2.1, h2.2.2.2⟩

/-- Claim C4: a loop iteration that handles a confirmed button press ends
with the preset index advanced by one modulo `PRESET_COUNT`, the new
preset's durations applied, the pump OFF with the relay LOW and
`pumpStopTime` equal to the iteration's `now` — in particular the pump
tick that runs later in the same iteration does not turn the pump back
on (every preset's `cycleInterval` is positive). -/
theorem preset_press_forces_stop (inp : LoopInput) (s : SysState)
    (hb : inp.button = true) (h1 : s.lastButtonState = true)
    (h2 : s.stableState = false) (h3 : DEBOUNCE_MS ≤ wsub inp.now s.lastDebounceTime)
    (hrel : s.relay = s.pumpRunning) :
    (loopStep inp s).1.currentPreset = (s.currentPreset + 1) % PRESET_COUNT ∧
    (loopStep inp s).1.pumpOnDuration =
      (PRESETS.getD ((s.currentPreset + 1) % PRESET_COUNT) defPreset).onDuration ∧
    (loopStep inp s).1.pumpCycleInterval =
      (PRESETS.getD ((s.currentPreset + 1) % PRESET_COUNT) defPreset).cycleInterval ∧
    (loopStep inp s).1.pumpRunning = false ∧
    (loopStep inp s).1.relay = false ∧
    (loopStep inp s).1.pumpStopTime = inp.now := by
  obtain ⟨hc1, hc2, hc3, hc4, hc5, hc6, hc7, hc8, hc9, hc10⟩ :=
    buttonStep_press_fields inp.now s h1 h2 h3
  have hbcyc : 0 < (buttonStep inp.now true s).1.pumpCycleInterval := by
    rw [hc3]
    exact preset_cycle_pos _ (Nat.mod_lt _ (by decide))
  have hpump : updatePump inp.now (buttonStep inp.now true s).1 =
      (buttonStep inp.now true s).1 :=
    updatePump_stays_off inp.now _ hc4 (by rw [hc6, wsub_self]; exact hbcyc)
  have hloop : (loopStep inp s).1 =
      (displayPhase inp.now
        (sensorPhase inp.now inp.sensor (buttonStep inp.now true s).1)).1 := by
    unfold loopStep
    rw [hb, hpump]
  obtain ⟨hs1, hs2, hs3, hs4, hs5, hs6, hs7, hs8, hs9, hs10, hs11⟩ :=
    sensorPhase_pres inp.now inp.sensor (buttonStep inp.now true s).1
  obtain ⟨hd1, hd2, hd3, hd4, hd5, hd6, hd7, hd8, hd9, hd10⟩ :=
    displayPhase_pres inp.now
      (sensorPhase inp.now inp.sensor (buttonStep inp.now true s).1)
  refine ⟨?_, ?_, ?_, ?_, ?_, ?_⟩
  · rw [hloop, hd7, hs7, hc1]
  · rw [hloop, hd1, hs1, hc2]
  · rw [hloop, hd2, hs2, hc3]
  · rw [hloop, hd3, hs3, hc4]
  · rw [hloop, hd6, hs6]
    exact hc5 hrel
  · rw [hloop, hd5, hs5, hc6]

/-- Witness for C4: in the concrete running state `c9state` (preset 0,
button held HIGH past the debounce window) the press iteration at
`now = 100` installs preset 1 and leaves the pump off with the cycle
countdown restarted at 100. -/
theorem preset_press_forces_stop_witness :
    (loopStep ⟨100, true, none⟩ c9state).1.currentPreset = 1 ∧
    (loopStep ⟨100, true, none⟩ c9state).1.pumpCycleInterval = 7200000 ∧
    (loopStep ⟨100, true, none⟩ c9state).1.pumpRunning = false ∧
    (loopStep ⟨100, true, none⟩ c9state).1.pumpStopTime = 100 := by
  have h := preset_press_forces_stop ⟨100, true, none⟩ c9state rfl rfl
    (by decide) (by decide) rfl
  refine ⟨?_, ?_, h.2.2.2.1, h.2.2.2.2.2⟩
  · have := h.1
    simpa using this
  · have := h.2.2.1
    simpa using this

/-- Claim C5: when a sensor read is attempted (the read is due) and fails,
the cached temperature and humidity after the call equal their values
before the call, while `lastSensorRead` still advances to `now`, so the
read is not due again before `SENSOR_READ_INTERVAL` has elapsed. -/
theorem sensor_failure_retains_values (now : Nat) (s : SysState)
    (hdue : sensorDue now s = true) :
    (sensorPhase now none s).temperature = s.temperature ∧
    (sensorPhase now none s).humidity = s.humidity ∧
    (sensorPhase now none s).lastSensorRead = now ∧
    (∀ now2, wsub now2 now < SENSOR_READ_INTERVAL →
      sensorDue now2 (sensorPhase now none s) = false) := by
  have hphase : sensorPhase now none s = { s with lastSensorRead := now } := by
    simp [sensorPhase, readSensor, hdue]
  refine ⟨by rw [hphase], by rw [hphase], by rw [hphase], ?_⟩
  intro now2 hlt
  rw [hphase]
  simp [sensorDue, Nat.not_le.mpr hlt]

/-- Witness for C5: a failed read due at `now = 2500` on the boot state
keeps temperature and humidity and moves `lastSensorRead` to 2500, and
the read is not due again at `now2 = 3000`. -/
theorem sensor_failure_retains_values_witness :
    (sensorPhase 2500 none baseState).temperature = baseState.temperature ∧
    (sensorPhase 2500 none baseState).lastSensorRead = 2500 ∧
    sensorDue 3000 (sensorPhase 2500 none baseState) = false := by
  have h := sensor_failure_retains_values 2500 baseState (by decide)
  exact ⟨h.1, h.2.2.1, h.2.2.2 3000 (by decide)⟩

/-- Claim C6: while the overlay is active and younger than
`OVERLAY_DISPLAY_MS`, the display step performs no normal render and
leaves the overlay up; once the wrapping age reaches
`OVERLAY_DISPLAY_MS`, the same iteration clears the overlay and a normal
render happens exactly when the presenter's own
`DISPLAY_UPDATE_INTERVAL` gate allows it (no forced re-render). -/
theorem overlay_gates_display (now : Nat) (s : SysState) :
    (s.overlayShowing = true → wsub now s.overlayStartTime < OVERLAY_DISPLAY_MS →
      (displayPhase now s).2 = false ∧
      (displayPhase now s).1.overlayShowing = true ∧
      (displayPhase now s).1.lastDisplayUpdate = s.lastDisplayUpdate) ∧
    (s.overlayShowing = true → OVERLAY_DISPLAY_MS ≤ wsub now s.overlayStartTime →
      (displayPhase now s).1.overlayShowing = false ∧
      ((displayPhase now s).2 = true ↔
        DISPLAY_UPDATE_INTERVAL ≤ wsub now s.lastDisplayUpdate)) := by
  constructor
  · intro hov hyoung
    simp [displayPhase, hov, Nat.not_le.mpr hyoung]
  · intro hov hexp
    by_cases hdue : DISPLAY_UPDATE_INTERVAL ≤ wsub now s.lastDisplayUpdate <;>
      simp [displayPhase, hov, hexp, hdue]

/-- Witness for C6: with the overlay triggered at 1000, the display step
at 2000 (age 1000 ms < 2 s) renders nothing and keeps the overlay; the
step at 3000 (age 2000 ms) clears it, and since the last normal render
was at 0 the render fires in that same iteration. -/
theorem overlay_gates_display_witness :
    (displayPhase 2000 { baseState with overlayShowing := true, overlayStartTime := 1000 }).2
      = false ∧
    (displayPhase 3000
      { baseState with overlayShowing := true, overlayStartTime := 1000 }).1.overlayShowing
      = false ∧
    (displayPhase 3000 { baseState with overlayShowing := true, overlayStartTime := 1000 }).2
      = true := by
  have h1 := (overlay_gates_display 2000
    { baseState with overlayShowing := true, overlayStartTime := 1000 }).1 rfl (by decide)
  have h2 := (overlay_gates_display 3000
    { baseState with overlayShowing := true, overlayStartTime := 1000 }).2 rfl (by decide)
  exact ⟨h1.1, h2.1, h2.2.mpr (by decide)⟩

/-- Counterexample to Claim C7 as stated: booting with an invalid marker
loads index 0, but the durations applied are preset 0's
(`cycleInterval = 1800000` ms = 30 min), not the default-duration
constants: `DEFAULT_PUMP_CYCLE_INTERVAL` is 300000 ms = 5 min.  (The
`onDuration` half does coincide with `DEFAULT_PUMP_ON_DURATION`.) -/
theorem boot_marker_mismatch_counterexample :
    loadPresetFromEEPROM ⟨0, 0⟩ = 0 ∧
    (bootSetup 0 ⟨0, 0⟩).currentPreset = 0 ∧
    (bootSetup 0 ⟨0, 0⟩).pumpCycleInterval = 1800000 ∧
    DEFAULT_PUMP_CYCLE_INTERVAL = 300000 ∧
    (bootSetup 0 ⟨0, 0⟩).pumpCycleInterval ≠ DEFAULT_PUMP_CYCLE_INTERVAL := by
  refine ⟨rfl, rfl, rfl, rfl, by decide⟩

/-- Claim C7 as amended: for every boot in which the persisted marker does
not equal `EEPROM_MAGIC`, or the persisted index is at least
`PRESET_COUNT`, the loaded index is 0 and preset 0's durations are
applied (onDuration 60 s — which equals `DEFAULT_PUMP_ON_DURATION` — and
cycleInterval 30 min, which differs from
`DEFAULT_PUMP_CYCLE_INTERVAL` = 5 min); this is a normal code path, not
an error. -/
theorem boot_marker_mismatch_loads_preset0 (n : Nat) (e : EEPROMState)
    (h : e.magic ≠ EEPROM_MAGIC ∨ PRESET_COUNT ≤ e.preset) :
    loadPresetFromEEPROM e = 0 ∧
    (bootSetup n e).currentPreset = 0 ∧
    (bootSetup n e).pumpOnDuration = 60000 ∧
    (bootSetup n e).pumpOnDuration = DEFAULT_PUMP_ON_DURATION ∧
    (bootSetup n e).pumpCycleInterval = 1800000 := by
  have hload : loadPresetFromEEPROM e = 0 := by
    rcases h with hm | hi
    · simp [loadPresetFromEEPROM, hm]
    · simp [loadPresetFromEEPROM, Nat.not_lt.mpr hi]
  refine ⟨hload, ?_, ?_, ?_, ?_⟩ <;>
    simp [bootSetup, hload, applyPreset, pumpOn, initialGlobals,
      PRESET_COUNT, PRESETS, defPreset, DEFAULT_PUMP_ON_DURATION]

/-- Witness for C7 (amended): booting at 0 with a zeroed EEPROM and
booting with a valid marker but out-of-range index 9 both load preset 0
with its 60 s / 30 min durations. -/
theorem boot_marker_mismatch_loads_preset0_witness :
    loadPresetFromEEPROM ⟨0, 0⟩ = 0 ∧
    (bootSetup 0 ⟨0, 0⟩).pumpCycleInterval = 1800000 ∧
    loadPresetFromEEPROM ⟨0xC7, 9⟩ = 0 ∧
    (bootSetup 5 ⟨0xC7, 9⟩).currentPreset = 0 := by
  have h1 := boot_marker_mismatch_loads_preset0 0 ⟨0, 0⟩ (Or.inl (by decide))
  have h2 := boot_marker_mismatch_loads_preset0 5 ⟨0xC7, 9⟩ (Or.inr (by decide))
  exact ⟨h1.1, h1.2.2.2.2, h2.1, h2.2.1⟩

theorem sensorPhase_success_fields (now : Nat) (h t : Int) (s : SysState)
    (hdue : sensorDue now s = true) :
    (sensorPhase now (some (h, t)) s).temperature = t ∧
    (sensorPhase now (some (h, t)) s).humidity = h := by
  simp [sensorPhase, readSensor, hdue]

/-- Counterexample to Claim C8 as stated: `c8state` is reached from boot
through one loop iteration whose only sensor read fails, so no sensor
reading has ever succeeded there; yet line 1 renders the formatted
numeric layout over the initial 0.0 values, not a fallback string.  The
"No sensor" fallback in the code is selected by the compile-time
`ENABLE_TEMP_HUMIDITY_SENSOR` toggle, not by read success. -/
theorem line1_fallback_counterexample :
    renderLine1 true c8state = "T: 0.0C H: 0.0%" ∧
    renderLine1 true c8state ≠ "No sensor" := by
  constructor <;> decide

/-- Claim C8 as amended: with the sensor feature compiled in, line 1
always shows the cached temperature and humidity to one decimal place in
the fixed layout (after a successful read, the values just read); the
fallback string appears exactly when the sensor feature is compiled out,
independent of read success. -/
theorem line1_formatting (s : SysState) (n : Nat) (b : Bool) (h t : Int)
    (hdue : sensorDue n s = true) :
    renderLine1 true ((loopStep ⟨n, b, some (h, t)⟩ s).1) =
      "T:" ++ dtostrf41 t ++ "C H:" ++ dtostrf41 h ++ "%" ∧
    renderLine1 false ((loopStep ⟨n, b, some (h, t)⟩ s).1) = "No sensor" := by
  have hb := buttonStep_sensor_fields n b s
  have hu := updatePump_pres n (buttonStep n b s).1
  have hdue2 : sensorDue n (updatePump n (buttonStep n b s).1) = true := by
    unfold sensorDue at *
    rw [hu.2.2.2.2.2.2.2.2.2.1, hb.2.2.1]
    exact hdue
  have hs2 := sensorPhase_success_fields n h t (updatePump n (buttonStep n b s).1) hdue2
  have hdisp := displayPhase_pres n
    (sensorPhase n (some (h, t)) (updatePump n (buttonStep n b s).1))
  have htmp : (loopStep ⟨n, b, some (h, t)⟩ s).1.temperature = t := by
    show (displayPhase n
      (sensorPhase n (some (h, t)) (updatePump n (buttonStep n b s).1))).1.temperature = t
    rw [hdisp.2.2.2.2.2.2.2.1, hs2.1]
  have hhum : (loopStep ⟨n, b, some (h, t)⟩ s).1.humidity = h := by
    show (displayPhase n
      (sensorPhase n (some (h, t)) (updatePump n (buttonStep n b s).1))).1.humidity = h
    rw [hdisp.2.2.2.2.2.2.2.2.1, hs2.2]
  constructor
  · simp [renderLine1, htmp, hhum]
  · simp [renderLine1]

/-- Witness for C8 (amended): a successful read of 23.4 C / 55.5 % during
the iteration at 2500 ms renders those values on line 1, while the
compiled-out variant always shows the fallback. -/
theorem line1_formatting_witness :
    renderLine1 true ((loopStep ⟨2500, false, some (555, 234)⟩ baseState).1) =
      "T:" ++ dtostrf41 234 ++ "C H:" ++ dtostrf41 555 ++ "%" ∧
    renderLine1 false ((loopStep ⟨2500, false, some (555, 234)⟩ baseState).1) =
      "No sensor" :=
  line1_formatting baseState 2500 false 555 234 (by decide)

/-- Counterexample to Claim C9 as stated: the iteration at `now = 100`
handles a confirmed press while the pump is running; the pump transitions
from ON to OFF (relay LOW) in that iteration, yet the log gains only the
preset-change line — no pump-off line with a temperature/humidity
snapshot is emitted, because the forced stop bypasses `pumpOff()`. -/
theorem preset_stop_unlogged_counterexample :
    c9state.pumpRunning = true ∧
    (loopStep ⟨100, true, none⟩ c9state).1.pumpRunning = false ∧
    (loopStep ⟨100, true, none⟩ c9state).1.relay = false ∧
    (loopStep ⟨100, true, none⟩ c9state).1.log =
      [LogEvent.presetChange "2: 60s / 2h"] ∧
    ((loopStep ⟨100, true, none⟩ c9state).1.log.all fun ev =>
      !ev.isPumpOffEvent) = true := by
  refine ⟨rfl, ?_, ?_, ?_, ?_⟩ <;> decide

/-- Claim C9 as amended: every transition performed by the pump state
machine itself emits exactly one log line carrying the current
temperature/humidity snapshot (and a non-transitioning tick emits none);
the startup `pumpOn()` emits one such line; but the forced stop done by
the preset-change handler is not routed through `pumpOff()` and emits no
pump-off line (see the counterexample). -/
theorem pump_transition_logging (now bootNow : Nat) (s : SysState) (e : EEPROMState) :
    (s.pumpRunning = true →
      (updatePump now s).log = s.log ++
        (if s.pumpOnDuration ≤ wsub now s.pumpStartTime
         then [LogEvent.pumpOff s.temperature s.humidity] else [])) ∧
    (s.pumpRunning = false →
      (updatePump now s).log = s.log ++
        (if s.pumpCycleInterval ≤ wsub now s.pumpStopTime
         then [LogEvent.pumpOn s.temperature s.humidity] else [])) ∧
    (bootSetup bootNow e).log = [LogEvent.pumpOn 0 0] := by
  refine ⟨?_, ?_, ?_⟩
  · intro h
    by_cases hc : s.pumpOnDuration ≤ wsub now s.pumpStartTime <;>
      simp [updatePump, pumpOff, h, hc]
  · intro h
    by_cases hc : s.pumpCycleInterval ≤ wsub now s.pumpStopTime <;>
      simp [updatePump, pumpOn, h, hc]
  · simp [bootSetup, pumpOn, applyPreset, initialGlobals]

/-- Witness for C9 (amended): the timed tick at 70000 that stops a pump
started at 100 appends exactly the pump-off line with the 0.0/0.0
snapshot, and boot from blank EEPROM logs exactly the startup pump-on
line. -/
theorem pump_transition_logging_witness :
    (updatePump 70000 { baseState with pumpRunning := true, pumpStartTime := 100 }).log =
      [LogEvent.pumpOff 0 0] ∧
    (bootSetup 0 ⟨0, 0⟩).log = [LogEvent.pumpOn 0 0] := by
  have h := pump_transition_logging 70000 0
    { baseState with pumpRunning := true, pumpStartTime := 100 } ⟨0, 0⟩
  refine ⟨?_, h.2.2⟩
  rw [h.1 rfl]
  decide

/-- Claim C10: a confirmed press handled while the pump is already OFF
still resets `pumpStopTime` to the iteration's `now`, so the next
automatic activation fires exactly when a full new `cycleInterval` has
elapsed since the press, discarding the interval time elapsed before it. -/
theorem press_while_off_resets (inp : LoopInput) (s : SysState) (now2 : Nat)
    (hb : inp.button = true) (h1 : s.lastButtonState = true)
    (h2 : s.stableState = false) (h3 : DEBOUNCE_MS ≤ wsub inp.now s.lastDebounceTime)
    (h4 : s.pumpRunning = false) :
    (loopStep inp s).1.pumpStopTime = inp.now ∧
    (loopStep inp s).1.pumpRunning = false ∧
    ((updatePump now2 (loopStep inp s).1).pumpRunning = true ↔
      (loopStep inp s).1.pumpCycleInterval ≤ wsub now2 inp.now) := by
  obtain ⟨hc1, hc2, hc3, hc4, hc5, hc6, hc7, hc8, hc9, hc10⟩ :=
    buttonStep_press_fields inp.now s h1 h2 h3
  have hbcyc : 0 < (buttonStep inp.now true s).1.pumpCycleInterval := by
    rw [hc3]
    exact preset_cycle_pos _ (Nat.mod_lt _ (by decide))
  have hpump : updatePump inp.now (buttonStep inp.now true s).1 =
      (buttonStep inp.now true s).1 :=
    updatePump_stays_off inp.now _ hc4 (by rw [hc6, wsub_self]; exact hbcyc)
  have hloop : (loopStep inp s).1 =
      (displayPhase inp.now
        (sensorPhase inp.now inp.sensor (buttonStep inp.now true s).1)).1 := by
    unfold loopStep
    rw [hb, hpump]
  obtain ⟨hs1, hs2, hs3, hs4, hs5, hs6, hs7, hs8, hs9, hs10, hs11⟩ :=
    sensorPhase_pres inp.now inp.sensor (buttonStep inp.now true s).1
  obtain ⟨hd1, hd2, hd3, hd4, hd5, hd6, hd7, hd8, hd9, hd10⟩ :=
    displayPhase_pres inp.now
      (sensorPhase inp.now inp.sensor (buttonStep inp.now true s).1)
  have hstop : (loopStep inp s).1.pumpStopTime = inp.now := by
    rw [hloop, hd5, hs5, hc6]
  have hoff : (loopStep inp s).1.pumpRunning = false := by
    rw [hloop, hd3, hs3, hc4]
  refine ⟨hstop, hoff, ?_⟩
  rw [updatePump_on_iff now2 _ hoff, hstop]

/-- Witness for C10: a press at `now = 100` while the pump is off resets
the countdown to 100, and the tick at 7300100 (a full preset-1 cycle
later) turns the pump on. -/
theorem press_while_off_resets_witness :
    (loopStep ⟨100, true, none⟩
      { baseState with lastButtonState := true }).1.pumpStopTime = 100 ∧
    (updatePump 7300100 (loopStep ⟨100, true, none⟩
      { baseState with lastButtonState := true }).1).pumpRunning = true := by
  have h := press_while_off_resets ⟨100, true, none⟩
    { baseState with lastButtonState := true } 7300100 rfl rfl rfl (by decide) rfl
  exact ⟨h.1, h.2.2.mpr (by decide)⟩
